import Mathlib

/-!
# Verification of the `prim` evaluator (`src/prim/eval.py`)

A shallow embedding of the evaluation core of the `prim` expression
language: the runtime value model, the lexically scoped frame chain, the
builtin registry with its arity/type checking, and the recursive
tree-walking evaluator.

Conventions of the embedding:
* Python machine integers are arbitrary precision, so `int` is `Int`.
* Python `float` payloads are modelled as exact rationals `ℚ`; the claims
  under verification only concern the *kind* of float results and the
  exactness of integer results, never IEEE rounding.
* Python's `bool` is a subclass of `int`: `isinstance(b, int)` is true for
  booleans and arithmetic coerces `True`/`False` to `1`/`0`.  The embedding
  reproduces this in `asNum`.
* A raised `RuntimeError` becomes an `Except.error` carrying a structured
  error that records exactly the data interpolated into the Python message
  string (see the doc comment on each `EvalErr` constructor).
* Python division by zero raises `ZeroDivisionError`; the embedding models
  it as the error `EvalErr.zeroDivision`.
* The unbounded recursion of the Python interpreter (a closure body is not
  a syntactic subterm of the call) is made total with a fuel parameter;
  running out of fuel is the distinguished error `EvalErr.outOfFuel`,
  which corresponds to no behaviour of the source and never appears in a
  claim's conclusion.
-/

namespace Prim

/-- AST nodes (`prim.ast`, external to the core): the seven variants the
evaluator recognises, with the fields the evaluator reads. -/
inductive Expr where
  | intLit (value : Int)
  | floatLit (value : ℚ)
  | strLit (value : String)
  | sym (value : String)
  | lam (params : List String) (body : Expr)
  | ifE (conditions : List Expr) (consequents : List Expr) (alternative : Expr)
  | call (operator : Expr) (args : List Expr)
deriving Repr

/-- The four `NumberNumberToNumber` entries of `BUILTINS`
(`+`, `-`, `*`, `/`). -/
inductive ArithOp where
  | add | sub | mul | div
deriving Repr, DecidableEq

/-- The five `NumberNumberToBool` entries of `BUILTINS`
(`=`, `<`, `>`, `<=`, `>=`). -/
inductive CmpOp where
  | eq | lt | gt | le | ge
deriving Repr, DecidableEq

/-- The two `BoolBoolToBool` entries of `BUILTINS` (`and`, `or`). -/
inductive BoolOp where
  | and | or
deriving Repr, DecidableEq

/-- The `Builtin` variants of `eval.py`, one constructor per dataclass;
the payload enumerates which registry entry's native `fn` is wrapped. -/
inductive Builtin where
  /-- `NumberNumberToNumber(fn=...)` -/
  | arith (op : ArithOp)
  /-- `NumberNumberToBool(fn=...)` -/
  | cmp (op : CmpOp)
  /-- `BoolBoolToBool(fn=...)` -/
  | boolBin (op : BoolOp)
  /-- `BoolToBool(fn=lambda a: not a)`, the `not` entry -/
  | boolNot
  /-- `StringStringToString(fn=lambda a, b: a + b)`, the `++` entry -/
  | strConcat
deriving Repr, DecidableEq

mutual
/-- `Value = Number | bool | str | Builtin | Closure` with
`Number = int | float`.  `closure` is the `Closure` dataclass:
ordered parameter names, unevaluated body, captured frame. -/
inductive Value where
  | int (n : Int)
  | float (q : ℚ)
  | bool (b : Bool)
  | str (s : String)
  | builtin (b : Builtin)
  | closure (params : List String) (body : Expr) (env : Frame)

/-- `Frame`: a bindings mapping (modelled as an association list whose
keys are unique, in Python dict insertion order) plus an optional parent. -/
inductive Frame where
  | mk (bindings : List (String × Value)) (parent : Option Frame)
end

/-- Python `name in d` / `d[name]` on the bindings dict: association-list
lookup (keys are unique by construction, so the first hit is the value). -/
def lookupBindings : List (String × Value) → String → Option Value
  | [], _ => none
  | (k, v) :: rest, name => if k = name then some v else lookupBindings rest name

/-- `Frame.get`: check local bindings first; on a miss recurse into the
parent; return `none` (absent, not an error) when the chain is exhausted. -/
def Frame.get : Frame → String → Option Value
  | .mk bindings parent, name =>
    match lookupBindings bindings name with
    | some v => some v
    | none =>
      match parent with
      | some p => p.get name
      | none => none

/-- One Python dict assignment `d[k] = v`: if the key is present its value
is replaced in place (insertion order kept), otherwise the pair is
appended. -/
def dictInsert : List (String × Value) → String → Value → List (String × Value)
  | [], k, v => [(k, v)]
  | (k', v') :: rest, k, v =>
    if k' = k then (k', v) :: rest else (k', v') :: dictInsert rest k v

/-- The dict comprehension of `_eval_call_closure`:
`{param: arg for param, arg in zip(params, args)}`, built left to right;
a repeated parameter name overwrites the earlier entry. -/
def mkBindings (params : List String) (args : List Value) : List (String × Value) :=
  (params.zip args).foldl (fun d pv => dictInsert d pv.1 pv.2) []

/-- The `BUILTINS` registry, in source order. -/
def BUILTINS : List (String × Value) :=
  [ ("+", .builtin (.arith .add))
  , ("-", .builtin (.arith .sub))
  , ("*", .builtin (.arith .mul))
  , ("/", .builtin (.arith .div))
  , ("=", .builtin (.cmp .eq))
  , ("<", .builtin (.cmp .lt))
  , (">", .builtin (.cmp .gt))
  , ("<=", .builtin (.cmp .le))
  , (">=", .builtin (.cmp .ge))
  , ("and", .builtin (.boolBin .and))
  , ("or", .builtin (.boolBin .or))
  , ("not", .builtin .boolNot)
  , ("++", .builtin .strConcat) ]

/-- `base_env()`: builtins only, no parent. -/
def base_env : Frame := .mk BUILTINS none

/-- Modelled from the spec: the reserved literal spelling of the
true keyword, supplied by the external `prim.keyword` module (absent from
the core source); §6 of the spec names the two reserved spellings
`true`/`false`. -/
def keywordTrue : String := "true"

/-- Modelled from the spec: the reserved literal spelling of the
false keyword from the external `prim.keyword` module. -/
def keywordFalse : String := "false"

/-- Structured form of the `RuntimeError`s (and the host
`ZeroDivisionError`) the evaluator can raise.  Each constructor carries
exactly the data interpolated into the corresponding Python message. -/
inductive EvalErr where
  /-- fuel exhausted — an artefact of the embedding, no source counterpart -/
  | outOfFuel
  /-- `RuntimeError(f"Undefined identifier: {expr.value}")` -/
  | undefinedIdentifier (name : String)
  /-- `RuntimeError(f"Unsupported operator: {operator}")` from
  `_eval_call` — the NotCallable failure, carrying the operator value -/
  | unsupportedOperator (v : Value)
  /-- `RuntimeError("Expected 2 arguments")` / `"Expected 1 arguments"`
  from `_eval_call_builtin` — carries only the expected count -/
  | expectedArgs (expected : Nat)
  /-- `RuntimeError("Expected 2 number arguments")` and kin — carries the
  count and kind words of the message, nothing about the actual values.
  (The unary `not` branch reports `2 boolean` as in the source.) -/
  | expectedTypedArgs (expected : Nat) (kind : String)
  /-- `RuntimeError("Argument count mismatch")` from
  `_eval_call_closure` — carries no counts at all -/
  | argCountMismatch
  /-- host `ZeroDivisionError` escaping from the `/` native fn -/
  | zeroDivision

/-- A Python number in flight: an `int` or a `float`. -/
inductive Num where
  | i (n : Int)
  | f (q : ℚ)
deriving Repr

/-- The `isinstance(a, int) or isinstance(a, float)` test of
`_eval_call_builtin`, together with the numeric view of the value.
Python's `bool` is a subclass of `int`, so booleans pass the test and
are read as `1`/`0`. -/
def asNum : Value → Option Num
  | .int n => some (.i n)
  | .float q => some (.f q)
  | .bool b => some (.i (if b then 1 else 0))
  | _ => none

/-- Numeric view as a rational, for host promotion/comparison. -/
def Num.toRat : Num → ℚ
  | .i n => (n : ℚ)
  | .f q => q

/-- Host arithmetic with Python's promotion: `int op int` stays `int` for
`+`, `-`, `*`; any `float` operand promotes the result to `float`;
`/` always yields a `float` and raises `ZeroDivisionError` on a zero
divisor (for both `int` and `float` divisors). -/
def applyArith : ArithOp → Num → Num → Except EvalErr Num
  | .add, .i a, .i b => .ok (.i (a + b))
  | .add, a, b => .ok (.f (a.toRat + b.toRat))
  | .sub, .i a, .i b => .ok (.i (a - b))
  | .sub, a, b => .ok (.f (a.toRat - b.toRat))
  | .mul, .i a, .i b => .ok (.i (a * b))
  | .mul, a, b => .ok (.f (a.toRat * b.toRat))
  | .div, a, b =>
    if b.toRat = 0 then .error .zeroDivision
    else .ok (.f (a.toRat / b.toRat))

/-- Host numeric comparison: Python compares `int` and `float` by exact
mathematical value. -/
def applyCmp : CmpOp → Num → Num → Bool
  | .eq, a, b => a.toRat = b.toRat
  | .lt, a, b => a.toRat < b.toRat
  | .gt, a, b => b.toRat < a.toRat
  | .le, a, b => a.toRat ≤ b.toRat
  | .ge, a, b => b.toRat ≤ a.toRat

/-- The two `BoolBoolToBool` native fns. -/
def applyBoolOp : BoolOp → Bool → Bool → Bool
  | .and, a, b => a && b
  | .or, a, b => a || b

/-- Inject a `Num` back into the value union. -/
def Num.toValue : Num → Value
  | .i n => .int n
  | .f q => .float q

/-- `_eval_call_builtin`: per-variant arity check first
(`Expected 2/1 arguments`), then the dynamic type check
(`Expected ... arguments`), then the wrapped native fn on the
already-evaluated arguments.  Branch order and messages follow the
source; note the unary `not` branch's type error says `2 boolean`
as on line 165 of the source. -/
def evalBuiltin : Builtin → List Value → Except EvalErr Value
  | .arith op, [a, b] =>
    match asNum a, asNum b with
    | some x, some y =>
      match applyArith op x y with
      | .ok r => .ok r.toValue
      | .error e => .error e
    | _, _ => .error (.expectedTypedArgs 2 "number")
  | .arith _, _ => .error (.expectedArgs 2)
  | .cmp op, [a, b] =>
    match asNum a, asNum b with
    | some x, some y => .ok (.bool (applyCmp op x y))
    | _, _ => .error (.expectedTypedArgs 2 "number")
  | .cmp _, _ => .error (.expectedArgs 2)
  | .boolBin op, [a, b] =>
    match a, b with
    | .bool x, .bool y => .ok (.bool (applyBoolOp op x y))
    | _, _ => .error (.expectedTypedArgs 2 "boolean")
  | .boolBin _, _ => .error (.expectedArgs 2)
  | .boolNot, [a] =>
    match a with
    | .bool x => .ok (.bool (!x))
    | _ => .error (.expectedTypedArgs 2 "boolean")
  | .boolNot, _ => .error (.expectedArgs 1)
  | .strConcat, [a, b] =>
    match a, b with
    | .str x, .str y => .ok (.str (x ++ y))
    | _, _ => .error (.expectedTypedArgs 2 "string")
  | .strConcat, _ => .error (.expectedArgs 2)

/-- Python truthiness of a runtime value, as used by
`if _eval_expr(condition, env):` — zero numbers and the empty string are
falsy, `False` is falsy, and builtin/closure objects are always truthy. -/
def truthy : Value → Bool
  | .int n => n ≠ 0
  | .float q => q ≠ 0
  | .bool b => b
  | .str s => s ≠ ""
  | .builtin _ => true
  | .closure _ _ _ => true

/-- `_eval_symbol`: the two reserved keyword spellings first (they shadow
any binding), then `Frame.get`; absence becomes
`Undefined identifier: {name}`. -/
def evalSymbol (env : Frame) (name : String) : Except EvalErr Value :=
  if name = keywordTrue then .ok (.bool true)
  else if name = keywordFalse then .ok (.bool false)
  else
    match env.get name with
    | some v => .ok v
    | none => .error (.undefinedIdentifier name)

/-- `_eval_if`, abstracted over the sub-evaluator `ev` (which stands for
`lambda e: _eval_expr(e, env)`): walk `zip(conditions, consequents)` in
order (`zip` truncates at the shorter list); the first truthy condition
selects its consequent; if none is truthy, evaluate the alternative. -/
def evalIfWith (ev : Expr → Except EvalErr Value) :
    List Expr → List Expr → Expr → Except EvalErr Value
  | c :: cs, q :: qs, alt =>
    match ev c with
    | .error e => .error e
    | .ok v => if truthy v then ev q else evalIfWith ev cs qs alt
  | _, _, alt => ev alt

/-- The argument list comprehension of `_eval_call`, abstracted over the
sub-evaluator: evaluate every argument left to right, stopping at the
first failure. -/
def evalArgsWith (ev : Expr → Except EvalErr Value) :
    List Expr → Except EvalErr (List Value)
  | [] => .ok []
  | e :: es =>
    match ev e with
    | .error err => .error err
    | .ok v =>
      match evalArgsWith ev es with
      | .error err => .error err
      | .ok vs => .ok (v :: vs)

/-- The dispatch of `_eval_call` after operator and arguments are
evaluated, together with `_eval_call_closure`, abstracted over the body
evaluator `ev` (which stands for `lambda env, e: _eval_expr(e, env)`):
builtins go to `evalBuiltin`; a closure call checks
`len(args) == len(params)` (else `Argument count mismatch`), builds the
positional bindings dict, extends the *captured* frame (never the
caller's frame) with it and evaluates the body there; any other operator
value is `Unsupported operator: {v}`. -/
def applyValueWith (ev : Frame → Expr → Except EvalErr Value) :
    Value → List Value → Except EvalErr Value
  | .builtin b, vs => evalBuiltin b vs
  | .closure ps body cenv, vs =>
    if vs.length = ps.length then
      ev (.mk (mkBindings ps vs) (some cenv)) body
    else .error .argCountMismatch
  | v, _ => .error (.unsupportedOperator v)

/-- `_eval_expr`, fuelled (one unit of fuel per recursion depth, the
Python call stack made explicit).  Literal, symbol, lambda, if and call
cases in source order; `lam` builds a closure capturing the current
frame without touching the body. -/
def evalExpr : Nat → Frame → Expr → Except EvalErr Value
  | 0, _, _ => .error .outOfFuel
  | _ + 1, _, .intLit n => .ok (.int n)
  | _ + 1, _, .floatLit q => .ok (.float q)
  | _ + 1, env, .sym name => evalSymbol env name
  | _ + 1, _, .strLit s => .ok (.str s)
  | _ + 1, env, .lam params body => .ok (.closure params body env)
  | n + 1, env, .ifE conds cons alt => evalIfWith (evalExpr n env) conds cons alt
  | n + 1, env, .call op args =>
    match evalExpr n env op with
    | .error e => .error e
    | .ok f =>
      match evalArgsWith (evalExpr n env) args with
      | .error e => .error e
      | .ok vs => applyValueWith (evalExpr n) f vs

/-- `eval`: build the base environment and evaluate the root node
against it. -/
def eval (fuel : Nat) (e : Expr) : Except EvalErr Value :=
  evalExpr fuel base_env e

/-- `isinstance(a, bool)` on a runtime value. -/
def Value.isBool : Value → Bool
  | .bool _ => true
  | _ => false

/-- `isinstance(a, str)` on a runtime value. -/
def Value.isStr : Value → Bool
  | .str _ => true
  | _ => false

/-- The operator value is a `Builtin` or a `Closure` — the two callable
kinds of `_eval_call`. -/
def Value.isCallable : Value → Bool
  | .builtin _ => true
  | .closure _ _ _ => true
  | _ => false

/-! ## Helper lemmas on bindings dictionaries -/

theorem lookupBindings_append (l₁ l₂ : List (String × Value)) (k : String) :
    lookupBindings (l₁ ++ l₂) k =
      match lookupBindings l₁ k with
      | some v => some v
      | none => lookupBindings l₂ k := by
  induction l₁ with
  | nil => simp [lookupBindings]
  | cons p rest ih =>
    by_cases h : p.1 = k
    · simp [lookupBindings, h]
    · simp [lookupBindings, h, ih]

theorem lookupBindings_eq_none (l : List (String × Value)) (k : String)
    (h : k ∉ l.map Prod.fst) : lookupBindings l k = none := by
  induction l with
  | nil => rfl
  | cons p rest ih =>
    simp only [List.map_cons, List.mem_cons] at h
    push_neg at h
    simp [lookupBindings, Ne.symm h.1, ih h.2]

theorem dictInsert_eq_append (d : List (String × Value)) (k : String) (v : Value)
    (h : k ∉ d.map Prod.fst) : dictInsert d k v = d ++ [(k, v)] := by
  induction d with
  | nil => rfl
  | cons p rest ih =>
    simp only [List.map_cons, List.mem_cons] at h
    push_neg at h
    simp [dictInsert, Ne.symm h.1, ih h.2]

theorem foldl_dictInsert_fresh (l d : List (String × Value))
    (hd : ∀ k ∈ l.map Prod.fst, k ∉ d.map Prod.fst)
    (hl : (l.map Prod.fst).Nodup) :
    l.foldl (fun d pv => dictInsert d pv.1 pv.2) d = d ++ l := by
  induction l generalizing d with
  | nil => simp
  | cons p rest ih =>
    simp only [List.map_cons, List.nodup_cons] at hl
    have hp : p.1 ∉ d.map Prod.fst := hd p.1 (by simp)
    have hrest : ∀ k ∈ rest.map Prod.fst, k ∉ (dictInsert d p.1 p.2).map Prod.fst := by
      intro k hk
      rw [dictInsert_eq_append d p.1 p.2 hp]
      simp only [List.map_append, List.mem_append, List.map_cons, List.map_nil,
        List.mem_singleton, not_or]
      exact ⟨hd k (by simp [hk]), fun hkp => hl.1 (hkp ▸ hk)⟩
    calc (p :: rest).foldl (fun d pv => dictInsert d pv.1 pv.2) d
        = rest.foldl (fun d pv => dictInsert d pv.1 pv.2) (dictInsert d p.1 p.2) := rfl
      _ = dictInsert d p.1 p.2 ++ rest := ih (dictInsert d p.1 p.2) hrest hl.2
      _ = (d ++ [p]) ++ rest := by rw [dictInsert_eq_append d p.1 p.2 hp]
      _ = d ++ p :: rest := by simp

theorem zip_map_fst_sublist (ps : List String) (vs : List Value) :
    ((ps.zip vs).map Prod.fst).Sublist ps := by
  induction ps generalizing vs with
  | nil => simp
  | cons p rest ih =>
    cases vs with
    | nil => simp
    | cons v vrest =>
      simpa [List.zip_cons_cons] using (ih vrest).cons₂ p

/-- With pairwise-distinct parameter names the dict comprehension of
`_eval_call_closure` never overwrites, so the bindings are literally the
positional zip of parameters and arguments. -/
theorem mkBindings_eq_zip (ps : List String) (vs : List Value)
    (h : ps.Nodup) : mkBindings ps vs = ps.zip vs := by
  unfold mkBindings
  have hkeys : ((ps.zip vs).map Prod.fst).Nodup :=
    (zip_map_fst_sublist ps vs).nodup h
  simpa using foldl_dictInsert_fresh (ps.zip vs) [] (by simp) hkeys

theorem lookupBindings_zip_get (ps : List String) (vs : List Value)
    (h : ps.Nodup) (i : Nat) (hp : i < ps.length) (hv : i < vs.length) :
    lookupBindings (ps.zip vs) (ps.get ⟨i, hp⟩) = some (vs.get ⟨i, hv⟩) := by
  induction ps generalizing vs i with
  | nil => exact absurd hp (by simp)
  | cons p rest ih =>
    cases vs with
    | nil => exact absurd hv (by simp)
    | cons v vrest =>
      rw [List.nodup_cons] at h
      cases i with
      | zero => simp [lookupBindings]
      | succ j =>
        have hj : ¬(p = rest.get ⟨j, by simpa using hp⟩) := by
          intro hc
          exact h.1 (hc ▸ List.get_mem rest j (by simpa using hp))
        simp only [List.zip_cons_cons, lookupBindings, List.get]
        rw [if_neg hj]
        exact ih vrest h.2 j (by simpa using hp) (by simpa using hv)

/-! ## Helper lemmas on the builtin checks -/

theorem arith_arity_err (op : ArithOp) (args : List Value) (h : args.length ≠ 2) :
    evalBuiltin (.arith op) args = .error (.expectedArgs 2) := by
  match args with
  | [] => rfl
  | [_] => rfl
  | [_, _] => exact absurd rfl h
  | _ :: _ :: _ :: _ => rfl

theorem cmp_arity_err (op : CmpOp) (args : List Value) (h : args.length ≠ 2) :
    evalBuiltin (.cmp op) args = .error (.expectedArgs 2) := by
  match args with
  | [] => rfl
  | [_] => rfl
  | [_, _] => exact absurd rfl h
  | _ :: _ :: _ :: _ => rfl

theorem boolBin_arity_err (op : BoolOp) (args : List Value) (h : args.length ≠ 2) :
    evalBuiltin (.boolBin op) args = .error (.expectedArgs 2) := by
  match args with
  | [] => rfl
  | [_] => rfl
  | [_, _] => exact absurd rfl h
  | _ :: _ :: _ :: _ => rfl

theorem strConcat_arity_err (args : List Value) (h : args.length ≠ 2) :
    evalBuiltin .strConcat args = .error (.expectedArgs 2) := by
  match args with
  | [] => rfl
  | [_] => rfl
  | [_, _] => exact absurd rfl h
  | _ :: _ :: _ :: _ => rfl

theorem boolNot_arity_err (args : List Value) (h : args.length ≠ 1) :
    evalBuiltin .boolNot args = .error (.expectedArgs 1) := by
  match args with
  | [] => rfl
  | [_] => exact absurd rfl h
  | _ :: _ :: _ => rfl

theorem arith_type_err (op : ArithOp) (a b : Value)
    (h : asNum a = none ∨ asNum b = none) :
    evalBuiltin (.arith op) [a, b] = .error (.expectedTypedArgs 2 "number") := by
  rcases h with h | h
  · cases hb : asNum b <;> simp [evalBuiltin, h, hb]
  · cases ha : asNum a <;> simp [evalBuiltin, ha, h]

theorem cmp_type_err (op : CmpOp) (a b : Value)
    (h : asNum a = none ∨ asNum b = none) :
    evalBuiltin (.cmp op) [a, b] = .error (.expectedTypedArgs 2 "number") := by
  rcases h with h | h
  · cases hb : asNum b <;> simp [evalBuiltin, h, hb]
  · cases ha : asNum a <;> simp [evalBuiltin, ha, h]

theorem arith_ok (op : ArithOp) (a b : Value) (x y : Num)
    (ha : asNum a = some x) (hb : asNum b = some y) :
    evalBuiltin (.arith op) [a, b] = (applyArith op x y).map Num.toValue := by
  cases hr : applyArith op x y <;> simp [evalBuiltin, ha, hb, hr, Except.map]

theorem cmp_ok (op : CmpOp) (a b : Value) (x y : Num)
    (ha : asNum a = some x) (hb : asNum b = some y) :
    evalBuiltin (.cmp op) [a, b] = .ok (.bool (applyCmp op x y)) := by
  simp [evalBuiltin, ha, hb]

theorem boolBin_type_err (op : BoolOp) (a b : Value)
    (h : a.isBool = false ∨ b.isBool = false) :
    evalBuiltin (.boolBin op) [a, b] = .error (.expectedTypedArgs 2 "boolean") := by
  cases a <;> cases b <;> simp_all [Value.isBool, evalBuiltin]

theorem boolBin_ok (op : BoolOp) (x y : Bool) :
    evalBuiltin (.boolBin op) [.bool x, .bool y] = .ok (.bool (applyBoolOp op x y)) :=
  rfl

theorem boolNot_type_err (a : Value) (h : a.isBool = false) :
    evalBuiltin .boolNot [a] = .error (.expectedTypedArgs 2 "boolean") := by
  cases a <;> simp_all [Value.isBool, evalBuiltin]

theorem boolNot_ok (x : Bool) :
    evalBuiltin .boolNot [.bool x] = .ok (.bool (!x)) := rfl

theorem strConcat_type_err (a b : Value)
    (h : a.isStr = false ∨ b.isStr = false) :
    evalBuiltin .strConcat [a, b] = .error (.expectedTypedArgs 2 "string") := by
  cases a <;> cases b <;> simp_all [Value.isStr, evalBuiltin]

theorem strConcat_ok (x y : String) :
    evalBuiltin .strConcat [.str x, .str y] = .ok (.str (x ++ y)) := rfl

theorem closure_arity_err (n : Nat) (ps : List String) (body : Expr)
    (cenv : Frame) (vs : List Value) (h : vs.length ≠ ps.length) :
    applyValueWith (evalExpr n) (.closure ps body cenv) vs
      = .error .argCountMismatch := by
  simp [applyValueWith, h]

theorem notCallable_err (n : Nat) (v : Value) (vs : List Value)
    (h : v.isCallable = false) :
    applyValueWith (evalExpr n) v vs = .error (.unsupportedOperator v) := by
  cases v <;> simp_all [Value.isCallable, applyValueWith]

theorem undef_err (env : Frame) (name : String)
    (h1 : name ≠ keywordTrue) (h2 : name ≠ keywordFalse)
    (h3 : env.get name = none) :
    evalSymbol env name = .error (.undefinedIdentifier name) := by
  simp [evalSymbol, h1, h2, h3]

/-! ## Theorems for the claims -/

/-- C7: applying the identity closure produced by evaluating
`(lambda (x) x)` in any environment to any value `v`, of any of the six
value kinds, returns exactly `v` (and evaluating the lambda itself
produces that closure). -/
theorem identity_closure_law (v : Value) (env : Frame) (n : Nat) :
    evalExpr (n + 1) env (.lam ["x"] (.sym "x"))
        = .ok (.closure ["x"] (.sym "x") env) ∧
    applyValueWith (evalExpr (n + 1)) (.closure ["x"] (.sym "x") env) [v]
        = .ok v := by
  refine ⟨rfl, ?_⟩
  simp [applyValueWith, mkBindings, dictInsert, evalExpr, evalSymbol,
    keywordTrue, keywordFalse, Frame.get, lookupBindings]

/-- C1: a closure call with the wrong number of arguments fails with the
arity-mismatch error; with the right number it evaluates the closure's
body in a new frame whose bindings are the positional dict of parameters
to arguments (each parameter looked up positionally when the names are
distinct) and whose parent is the closure's captured frame — the
caller's frame appears nowhere.  The lexical-scoping instance of the
spec: `((lambda (x) (lambda (y) x)) 42)` applied to `0` after the outer
call has returned still resolves `x` to `42`. -/
theorem closure_call_semantics (n : Nat) (ps : List String) (body : Expr)
    (cenv : Frame) (vs : List Value) :
    (vs.length ≠ ps.length →
      applyValueWith (evalExpr n) (.closure ps body cenv) vs
        = .error .argCountMismatch) ∧
    (vs.length = ps.length →
      applyValueWith (evalExpr n) (.closure ps body cenv) vs
        = evalExpr n (.mk (mkBindings ps vs) (some cenv)) body) ∧
    (ps.Nodup → ∀ (i : Nat) (hp : i < ps.length) (hv : i < vs.length),
      lookupBindings (mkBindings ps vs) (ps.get ⟨i, hp⟩)
        = some (vs.get ⟨i, hv⟩)) ∧
    eval 20 (.call (.call (.lam ["x"] (.lam ["y"] (.sym "x"))) [.intLit 42])
      [.intLit 0]) = .ok (.int 42) := by
  refine ⟨?_, ?_, ?_, rfl⟩
  · intro h
    simp [applyValueWith, h]
  · intro h
    simp [applyValueWith, h]
  · intro hnd i hp hv
    rw [mkBindings_eq_zip ps vs hnd]
    exact lookupBindings_zip_get ps vs hnd i hp hv

/-- C1 witness: the closure-call theorem applied at concrete inputs —
an over-applied one-parameter closure fails with the arity error, a
correctly applied one evaluates its body in the extended frame, and in a
two-parameter frame the second parameter resolves to the second
argument. -/
theorem closure_call_semantics_witness :
    applyValueWith (evalExpr 3) (.closure ["a"] (.sym "a") base_env)
      [.int 1, .int 2] = .error .argCountMismatch ∧
    applyValueWith (evalExpr 3) (.closure ["a"] (.sym "a") base_env) [.int 7]
      = evalExpr 3 (.mk (mkBindings ["a"] [.int 7]) (some base_env)) (.sym "a") ∧
    lookupBindings (mkBindings ["a", "b"] [.int 1, .int 2])
        (["a", "b"].get ⟨1, by decide⟩)
      = some ([Value.int 1, Value.int 2].get ⟨1, by decide⟩) :=
  ⟨(closure_call_semantics 3 ["a"] (.sym "a") base_env [.int 1, .int 2]).1
      (by decide),
   (closure_call_semantics 3 ["a"] (.sym "a") base_env [.int 7]).2.1 (by decide),
   (closure_call_semantics 3 ["a", "b"] (.sym "a") base_env
      [.int 1, .int 2]).2.2.1 (by decide) 1 (by decide) (by decide)⟩

/-- C2 counterexample: with the repeated parameter list `["x", "x"]` and
arguments `1, 2` the call frame has one binding, not two — the claim's
"exactly as many bindings as the closure's parameter count … including
lists with repeated parameter names" fails — and the surviving binding
maps `"x"` to the *last* positional argument, not each parameter to its
own argument. -/
theorem call_frame_duplicate_params_counterexample :
    (mkBindings ["x", "x"] [.int 1, .int 2]).length = 1 ∧
    (["x", "x"] : List String).length = 2 ∧
    mkBindings ["x", "x"] [.int 1, .int 2] = [("x", .int 2)] ∧
    applyValueWith (evalExpr 3) (.closure ["x", "x"] (.sym "x") base_env)
      [.int 1, .int 2] = .ok (.int 2) :=
  ⟨rfl, rfl, rfl, rfl⟩

/-- C2 amended: for a parameter list with pairwise-distinct names and a
successful positional binding, the call frame's bindings are literally
the parameter/argument zip — exactly as many bindings as parameters,
each parameter bound positionally; with repeated names the dict
comprehension overwrites, keeping one binding per distinct name, bound
to the argument of the name's last occurrence. -/
theorem call_frame_bindings (ps : List String) (vs : List Value)
    (hnd : ps.Nodup) (hlen : vs.length = ps.length) :
    mkBindings ps vs = ps.zip vs ∧
    (mkBindings ps vs).length = ps.length ∧
    ∀ (i : Nat) (hp : i < ps.length) (hv : i < vs.length),
      lookupBindings (mkBindings ps vs) (ps.get ⟨i, hp⟩)
        = some (vs.get ⟨i, hv⟩) := by
  refine ⟨mkBindings_eq_zip ps vs hnd, ?_, ?_⟩
  · rw [mkBindings_eq_zip ps vs hnd, List.length_zip, hlen, Nat.min_self]
  · intro i hp hv
    rw [mkBindings_eq_zip ps vs hnd]
    exact lookupBindings_zip_get ps vs hnd i hp hv

/-- C2 witness: the amended call-frame theorem at the concrete parameter
list `["a", "b"]` with arguments `1, 2`. -/
theorem call_frame_bindings_witness :
    mkBindings ["a", "b"] [.int 1, .int 2]
        = (["a", "b"] : List String).zip [Value.int 1, Value.int 2] ∧
    (mkBindings ["a", "b"] [.int 1, .int 2]).length = 2 ∧
    ∀ (i : Nat) (hp : i < (["a", "b"] : List String).length)
        (hv : i < ([Value.int 1, Value.int 2] : List Value).length),
      lookupBindings (mkBindings ["a", "b"] [.int 1, .int 2])
          ((["a", "b"] : List String).get ⟨i, hp⟩)
        = some (([Value.int 1, Value.int 2] : List Value).get ⟨i, hv⟩) :=
  call_frame_bindings ["a", "b"] [.int 1, .int 2] (by decide) (by decide)

/-- C3 counterexample: the binary builtin `+` applied to the two boolean
arguments `(true, true)` — neither an integer nor a float — does not
fail with the type-mismatch error as claimed: the host treats booleans
as integers, so the call succeeds and returns the integer `2`. -/
theorem builtin_bool_args_counterexample :
    evalBuiltin (.arith .add) [.bool true, .bool true] = .ok (.int 2) := rfl

/-- C3 amended: every binary builtin variant demands exactly two
arguments and the unary `not` exactly one, failing with the arity error
otherwise; a number-accepting variant accepts an integer, a float or a
boolean (the host's `isinstance(·, int)` is true for booleans) and
fails with the number type error otherwise; the boolean variants demand
booleans and the string variant strings, failing with the matching type
error otherwise; on success the result is the wrapped native function
applied to the already-evaluated arguments. -/
theorem builtin_checks (a b : Value) (args : List Value) :
    ((args.length ≠ 2 → ∀ op : ArithOp,
        evalBuiltin (.arith op) args = .error (.expectedArgs 2)) ∧
     (args.length ≠ 2 → ∀ op : CmpOp,
        evalBuiltin (.cmp op) args = .error (.expectedArgs 2)) ∧
     (args.length ≠ 2 → ∀ op : BoolOp,
        evalBuiltin (.boolBin op) args = .error (.expectedArgs 2)) ∧
     (args.length ≠ 2 → evalBuiltin .strConcat args = .error (.expectedArgs 2)) ∧
     (args.length ≠ 1 → evalBuiltin .boolNot args = .error (.expectedArgs 1))) ∧
    ((asNum a = none ∨ asNum b = none → ∀ op : ArithOp,
        evalBuiltin (.arith op) [a, b] = .error (.expectedTypedArgs 2 "number")) ∧
     (asNum a = none ∨ asNum b = none → ∀ op : CmpOp,
        evalBuiltin (.cmp op) [a, b] = .error (.expectedTypedArgs 2 "number")) ∧
     (a.isBool = false ∨ b.isBool = false → ∀ op : BoolOp,
        evalBuiltin (.boolBin op) [a, b] = .error (.expectedTypedArgs 2 "boolean")) ∧
     (a.isBool = false →
        evalBuiltin .boolNot [a] = .error (.expectedTypedArgs 2 "boolean")) ∧
     (a.isStr = false ∨ b.isStr = false →
        evalBuiltin .strConcat [a, b] = .error (.expectedTypedArgs 2 "string"))) ∧
    ((∀ (op : ArithOp) (x y : Num), asNum a = some x → asNum b = some y →
        evalBuiltin (.arith op) [a, b] = (applyArith op x y).map Num.toValue) ∧
     (∀ (op : CmpOp) (x y : Num), asNum a = some x → asNum b = some y →
        evalBuiltin (.cmp op) [a, b] = .ok (.bool (applyCmp op x y))) ∧
     (∀ (op : BoolOp) (x y : Bool),
        evalBuiltin (.boolBin op) [.bool x, .bool y]
          = .ok (.bool (applyBoolOp op x y))) ∧
     (∀ x : Bool, evalBuiltin .boolNot [.bool x] = .ok (.bool (!x))) ∧
     (∀ x y : String,
        evalBuiltin .strConcat [.str x, .str y] = .ok (.str (x ++ y)))) :=
  ⟨⟨fun h op => arith_arity_err op args h,
    fun h op => cmp_arity_err op args h,
    fun h op => boolBin_arity_err op args h,
    fun h => strConcat_arity_err args h,
    fun h => boolNot_arity_err args h⟩,
   ⟨fun h op => arith_type_err op a b h,
    fun h op => cmp_type_err op a b h,
    fun h op => boolBin_type_err op a b h,
    fun h => boolNot_type_err a h,
    fun h => strConcat_type_err a b h⟩,
   ⟨fun op x y hx hy => arith_ok op a b x y hx hy,
    fun op x y hx hy => cmp_ok op a b x y hx hy,
    fun op x y => boolBin_ok op x y,
    fun x => boolNot_ok x,
    fun x y => strConcat_ok x y⟩⟩

/-- C3 witness: the builtin-check theorem at the concrete inputs of the
spec — `not` applied to two arguments fails with the unary arity error,
`+` applied to `(1, "a")` fails with the number type error, and `+` on
`(2, 3)` succeeds with `5`. -/
theorem builtin_checks_witness :
    evalBuiltin .boolNot [.bool true, .bool false] = .error (.expectedArgs 1) ∧
    evalBuiltin (.arith .add) [.int 1, .str "a"]
      = .error (.expectedTypedArgs 2 "number") ∧
    evalBuiltin (.arith .add) [.int 2, .int 3]
      = (applyArith .add (.i 2) (.i 3)).map Num.toValue :=
  ⟨(builtin_checks (.int 0) (.int 0) [.bool true, .bool false]).1.2.2.2.2
      (by decide),
   (builtin_checks (.int 1) (.str "a") []).2.1.1 (.inr rfl) .add,
   (builtin_checks (.int 2) (.int 3) []).2.2.1 .add (.i 2) (.i 3) rfl rfl⟩

/-- C4: an `IfExpr` evaluates its conditions left to right; the first
truthy condition selects its paired consequent and the result does not
depend on the later conditions, the later consequents or the
alternative; a falsy condition passes control to the remaining pairs;
with no truthy condition the alternative's value is the result.  The
concrete instances of the spec: conditions `[false, false]` yield the
alternative and `[false, true]` yield the second consequent. -/
theorem if_first_truthy (n : Nat) (env : Frame)
    (ev : Expr → Except EvalErr Value)
    (c q alt : Expr) (cs qs : List Expr) (v : Value) :
    (evalExpr (n + 1) env (.ifE cs qs alt) = evalIfWith (evalExpr n env) cs qs alt) ∧
    (evalIfWith ev [] qs alt = ev alt) ∧
    (ev c = .ok v → truthy v = true →
      evalIfWith ev (c :: cs) (q :: qs) alt = ev q) ∧
    (ev c = .ok v → truthy v = false →
      evalIfWith ev (c :: cs) (q :: qs) alt = evalIfWith ev cs qs alt) ∧
    (eval 10 (.ifE [.sym "false", .sym "false"] [.intLit 1, .intLit 2]
        (.intLit 3)) = .ok (.int 3)) ∧
    (eval 10 (.ifE [.sym "false", .sym "true"] [.intLit 1, .intLit 2]
        (.intLit 3)) = .ok (.int 2)) := by
  refine ⟨rfl, ?_, ?_, ?_, rfl, rfl⟩
  · cases qs <;> rfl
  · intro hc ht
    simp [evalIfWith, hc, ht]
  · intro hc ht
    simp [evalIfWith, hc, ht]

/-- C5: a `CallExpr` evaluates the operator first (an operator failure
propagates and no argument matters), then every argument strictly from
left to right (the first argument failure propagates, a successful
prefix is retained); only then is the operator value dispatched, and a
value that is neither a builtin nor a closure fails with the
NotCallable error carrying that value — in particular an argument
failure surfaces even when the operator is not callable, so the
arguments are evaluated regardless of the operator's kind. -/
theorem call_strict_order (n : Nat) (env : Frame)
    (ev : Expr → Except EvalErr Value)
    (op e : Expr) (args es : List Expr) (f v : Value) (vs : List Value)
    (err : EvalErr) :
    (evalExpr n env op = .error err →
      evalExpr (n + 1) env (.call op args) = .error err) ∧
    (evalExpr n env op = .ok f →
      evalArgsWith (evalExpr n env) args = .error err →
      evalExpr (n + 1) env (.call op args) = .error err) ∧
    (evalExpr n env op = .ok f →
      evalArgsWith (evalExpr n env) args = .ok vs →
      evalExpr (n + 1) env (.call op args) = applyValueWith (evalExpr n) f vs) ∧
    (ev e = .error err → evalArgsWith ev (e :: es) = .error err) ∧
    (ev e = .ok v → evalArgsWith ev es = .error err →
      evalArgsWith ev (e :: es) = .error err) ∧
    (ev e = .ok v → evalArgsWith ev es = .ok vs →
      evalArgsWith ev (e :: es) = .ok (v :: vs)) ∧
    (f.isCallable = false → applyValueWith (evalExpr n) f vs =
      .error (.unsupportedOperator f)) := by
  refine ⟨?_, ?_, ?_, ?_, ?_, ?_, ?_⟩
  · intro h; simp [evalExpr, h]
  · intro h ha; simp [evalExpr, h, ha]
  · intro h ha; simp [evalExpr, h, ha]
  · intro h; simp [evalArgsWith, h]
  · intro h ha; simp [evalArgsWith, h, ha]
  · intro h ha; simp [evalArgsWith, h, ha]
  · intro h
    cases f <;> simp_all [Value.isCallable, applyValueWith]

/-- C4 witness: the conditional theorem applied at concrete inputs — a
truthy first condition selects the first consequent, and a falsy first
condition passes control to the remaining pairs. -/
theorem if_first_truthy_witness :
    evalIfWith (evalExpr 5 base_env) [.sym "true", .intLit 0]
        [.intLit 1, .intLit 2] (.intLit 3) = evalExpr 5 base_env (.intLit 1) ∧
    evalIfWith (evalExpr 5 base_env) [.sym "false", .sym "true"]
        [.intLit 1, .intLit 2] (.intLit 3)
      = evalIfWith (evalExpr 5 base_env) [.sym "true"] [.intLit 2] (.intLit 3) :=
  ⟨(if_first_truthy 4 base_env (evalExpr 5 base_env) (.sym "true") (.intLit 1)
      (.intLit 3) [.intLit 0] [.intLit 2] (.bool true)).2.2.1 rfl rfl,
   (if_first_truthy 4 base_env (evalExpr 5 base_env) (.sym "false") (.intLit 1)
      (.intLit 3) [.sym "true"] [.intLit 2] (.bool false)).2.2.2.1 rfl rfl⟩

/-- C5 witness: the call-order theorem applied at concrete inputs — a
failing operator propagates its error, an argument failure propagates
even under a non-callable operator, a fully evaluated call reaches
dispatch, argument evaluation is strict left to right, and the integer
operator `7` fails as not callable. -/
theorem call_strict_order_witness :
    evalExpr 6 base_env (.call (.sym "zzz") [.intLit 1])
      = .error (.undefinedIdentifier "zzz") ∧
    evalExpr 6 base_env (.call (.intLit 7) [.sym "zzz"])
      = .error (.undefinedIdentifier "zzz") ∧
    evalExpr 6 base_env (.call (.intLit 7) [.intLit 1])
      = applyValueWith (evalExpr 5) (.int 7) [.int 1] ∧
    evalArgsWith (evalExpr 5 base_env) [.sym "zzz"]
      = .error (.undefinedIdentifier "zzz") ∧
    evalArgsWith (evalExpr 5 base_env) [.intLit 1, .sym "zzz"]
      = .error (.undefinedIdentifier "zzz") ∧
    evalArgsWith (evalExpr 5 base_env) [.intLit 1, .intLit 2]
      = .ok [.int 1, .int 2] ∧
    applyValueWith (evalExpr 5) (.int 7) [.int 1]
      = .error (.unsupportedOperator (.int 7)) :=
  ⟨(call_strict_order 5 base_env (evalExpr 5 base_env) (.sym "zzz") (.intLit 1)
      [.intLit 1] [] (.int 0) (.int 0) [] (.undefinedIdentifier "zzz")).1 rfl,
   (call_strict_order 5 base_env (evalExpr 5 base_env) (.intLit 7) (.intLit 1)
      [.sym "zzz"] [] (.int 7) (.int 0) [] (.undefinedIdentifier "zzz")).2.1
      rfl rfl,
   (call_strict_order 5 base_env (evalExpr 5 base_env) (.intLit 7) (.intLit 1)
      [.intLit 1] [] (.int 7) (.int 0) [.int 1] .outOfFuel).2.2.1 rfl rfl,
   (call_strict_order 5 base_env (evalExpr 5 base_env) (.intLit 7) (.sym "zzz")
      [] [] (.int 0) (.int 0) [] (.undefinedIdentifier "zzz")).2.2.2.1 rfl,
   (call_strict_order 5 base_env (evalExpr 5 base_env) (.intLit 7) (.intLit 1)
      [] [.sym "zzz"] (.int 0) (.int 1) []
      (.undefinedIdentifier "zzz")).2.2.2.2.1 rfl rfl,
   (call_strict_order 5 base_env (evalExpr 5 base_env) (.intLit 7) (.intLit 1)
      [] [.intLit 2] (.int 0) (.int 1) [.int 2] .outOfFuel).2.2.2.2.2.1
      rfl rfl,
   (call_strict_order 5 base_env (evalExpr 5 base_env) (.intLit 7) (.intLit 1)
      [] [] (.int 7) (.int 0) [.int 1] .outOfFuel).2.2.2.2.2.2 rfl⟩

/-- C6: a symbol named by the injected true/false keyword spelling
evaluates to the corresponding boolean in every environment — even one
whose frame chain binds that very name, so the keywords shadow user
bindings; any other name resolves by walking the frame chain innermost
first (local bindings, then the parent chain), and evaluation fails with
the undefined-identifier error carrying the name exactly when the whole
chain has no binding for it. -/
theorem symbol_resolution (n : Nat) (env p : Frame) (name : String)
    (bs : List (String × Value)) (v : Value) :
    (evalExpr (n + 1) env (.sym name) = evalSymbol env name) ∧
    (evalSymbol env keywordTrue = .ok (.bool true)) ∧
    (evalSymbol env keywordFalse = .ok (.bool false)) ∧
    (evalExpr (n + 1) (.mk [(keywordTrue, .int 99)] none) (.sym keywordTrue)
      = .ok (.bool true)) ∧
    (name ≠ keywordTrue → name ≠ keywordFalse →
      env.get name = some v → evalSymbol env name = .ok v) ∧
    (name ≠ keywordTrue → name ≠ keywordFalse →
      (evalSymbol env name = .error (.undefinedIdentifier name)
        ↔ env.get name = none)) ∧
    (lookupBindings bs name = some v → Frame.get (.mk bs (some p)) name = some v) ∧
    (lookupBindings bs name = none → Frame.get (.mk bs (some p)) name = p.get name) ∧
    (Frame.get (.mk bs none) name = lookupBindings bs name) := by
  refine ⟨rfl, rfl, rfl, rfl, ?_, ?_, ?_, ?_, ?_⟩
  · intro h1 h2 hv
    simp [evalSymbol, h1, h2, hv]
  · intro h1 h2
    constructor
    · intro he
      cases hg : env.get name with
      | none => rfl
      | some w => simp [evalSymbol, h1, h2, hg] at he
    · intro hg
      simp [evalSymbol, h1, h2, hg]
  · intro h
    simp [Frame.get, h]
  · intro h
    simp [Frame.get, h]
  · cases hl : lookupBindings bs name <;> simp [Frame.get, hl]

/-- C6 witness: the symbol theorem at concrete names — `+` resolves to
the addition builtin in the base environment, an unbound name is exactly
the undefined-identifier failure, a local binding is found before the
parent, and an empty local frame defers to the parent. -/
theorem symbol_resolution_witness :
    (evalSymbol base_env "+" = .ok (.builtin (.arith .add))) ∧
    (evalSymbol base_env "zzz" = .error (.undefinedIdentifier "zzz")
      ↔ base_env.get "zzz" = none) ∧
    (Frame.get (.mk [("a", .int 5)] (some base_env)) "a" = some (.int 5)) ∧
    (Frame.get (.mk [] (some base_env)) "+" = base_env.get "+") :=
  ⟨(symbol_resolution 0 base_env base_env "+" [] (.builtin (.arith .add))
      ).2.2.2.2.1 (by decide) (by decide) rfl,
   (symbol_resolution 0 base_env base_env "zzz" [] (.int 0)).2.2.2.2.2.1
      (by decide) (by decide),
   (symbol_resolution 0 base_env base_env "a" [("a", .int 5)] (.int 5)
      ).2.2.2.2.2.2.1 rfl,
   (symbol_resolution 0 base_env base_env "+" [] (.int 0)).2.2.2.2.2.2.2.1 rfl⟩

/-- C8 counterexample: a one-parameter closure called with two arguments
and a three-parameter closure called with one argument raise the *same*
error value, so the closure arity failure carries neither the expected
nor the actual count; likewise `+` on `(1, "a")` and `*` on a string and
a closure raise the same type error, so the type failure does not carry
the offending value. -/
theorem failure_context_counterexample :
    applyValueWith (evalExpr 3) (.closure ["x"] (.sym "x") base_env)
      [.int 1, .int 2] = .error .argCountMismatch ∧
    applyValueWith (evalExpr 3) (.closure ["y", "z", "w"] (.sym "y") base_env)
      [.int 1] = .error .argCountMismatch ∧
    evalBuiltin (.arith .add) [.int 1, .str "a"]
      = .error (.expectedTypedArgs 2 "number") ∧
    evalBuiltin (.arith .mul) [.str "b", .closure [] (.intLit 0) base_env]
      = .error (.expectedTypedArgs 2 "number") :=
  ⟨rfl, rfl, rfl, rfl⟩

/-- C8 amended: the undefined-identifier failure carries the offending
name and the not-callable failure the offending value; the builtin
arity failure carries only the expected count (2 or 1), the closure
arity failure carries neither expected nor actual count, and the type
failure carries only the expected kind and count wording, never the
actual value. -/
theorem failure_context (n : Nat) (env cenv : Frame) (name : String)
    (v a b : Value) (vs : List Value) (ps : List String) (body : Expr) :
    (name ≠ keywordTrue → name ≠ keywordFalse → env.get name = none →
      evalSymbol env name = .error (.undefinedIdentifier name)) ∧
    (v.isCallable = false →
      applyValueWith (evalExpr n) v vs = .error (.unsupportedOperator v)) ∧
    (vs.length ≠ 2 → ∀ op : ArithOp,
      evalBuiltin (.arith op) vs = .error (.expectedArgs 2)) ∧
    (vs.length ≠ 1 → evalBuiltin .boolNot vs = .error (.expectedArgs 1)) ∧
    (vs.length ≠ ps.length →
      applyValueWith (evalExpr n) (.closure ps body cenv) vs
        = .error .argCountMismatch) ∧
    (asNum a = none ∨ asNum b = none → ∀ op : ArithOp,
      evalBuiltin (.arith op) [a, b] = .error (.expectedTypedArgs 2 "number")) :=
  ⟨fun h1 h2 h3 => undef_err env name h1 h2 h3,
   fun h => notCallable_err n v vs h,
   fun h op => arith_arity_err op vs h,
   fun h => boolNot_arity_err vs h,
   fun h => closure_arity_err n ps body cenv vs h,
   fun h op => arith_type_err op a b h⟩

/-- C8 witness: the failure-context theorem at concrete inputs — an
unbound name, a string operator, an empty builtin argument list, a
two-argument `not`, an over-applied closure and a string operand. -/
theorem failure_context_witness :
    (evalSymbol base_env "zzz" = .error (.undefinedIdentifier "zzz")) ∧
    (applyValueWith (evalExpr 3) (.str "s") [.int 1]
      = .error (.unsupportedOperator (.str "s"))) ∧
    (evalBuiltin (.arith .add) [] = .error (.expectedArgs 2)) ∧
    (evalBuiltin .boolNot [.bool true, .bool false] = .error (.expectedArgs 1)) ∧
    (applyValueWith (evalExpr 3) (.closure ["x"] (.sym "x") base_env)
      [.int 1, .int 2] = .error .argCountMismatch) ∧
    (evalBuiltin (.arith .add) [.str "a", .int 1]
      = .error (.expectedTypedArgs 2 "number")) :=
  ⟨(failure_context 3 base_env base_env "zzz" (.int 0) (.int 0) (.int 0) []
      [] (.intLit 0)).1 (by decide) (by decide) rfl,
   (failure_context 3 base_env base_env "n" (.str "s") (.int 0) (.int 0)
      [.int 1] [] (.intLit 0)).2.1 rfl,
   (failure_context 3 base_env base_env "n" (.int 0) (.int 0) (.int 0) []
      [] (.intLit 0)).2.2.1 (by decide) .add,
   (failure_context 3 base_env base_env "n" (.int 0) (.int 0) (.int 0)
      [.bool true, .bool false] [] (.intLit 0)).2.2.2.1 (by decide),
   (failure_context 3 base_env base_env "n" (.int 0) (.int 0) (.int 0)
      [.int 1, .int 2] ["x"] (.sym "x")).2.2.2.2.1 (by decide),
   (failure_context 3 base_env base_env "n" (.int 0) (.str "a") (.int 1) []
      [] (.intLit 0)).2.2.2.2.2 (.inl rfl) .add⟩

/-- C9 counterexample: `/` applied to the two integers `(1, 0)` does not
return a float-like value as claimed — the host raises
`ZeroDivisionError`, which the evaluator propagates. -/
theorem int_div_zero_counterexample :
    evalBuiltin (.arith .div) [.int 1, .int 0] = .error .zeroDivision := rfl

/-- C9 amended: on two integer arguments `+`, `-` and `*` return the
exact integer result; `/` on two integers returns a float-kind value
whenever the divisor is nonzero, and raises the host zero-division
failure on a zero divisor; every arithmetic builtin on one integer and
one float returns a float (for division, when the divisor is nonzero). -/
theorem arithmetic_promotion (a b : Int) (q : ℚ) :
    evalBuiltin (.arith .add) [.int a, .int b] = .ok (.int (a + b)) ∧
    evalBuiltin (.arith .sub) [.int a, .int b] = .ok (.int (a - b)) ∧
    evalBuiltin (.arith .mul) [.int a, .int b] = .ok (.int (a * b)) ∧
    (b ≠ 0 → evalBuiltin (.arith .div) [.int a, .int b]
      = .ok (.float ((a : ℚ) / (b : ℚ)))) ∧
    evalBuiltin (.arith .div) [.int a, .int 0] = .error .zeroDivision ∧
    evalBuiltin (.arith .add) [.int a, .float q] = .ok (.float ((a : ℚ) + q)) ∧
    evalBuiltin (.arith .add) [.float q, .int a] = .ok (.float (q + (a : ℚ))) ∧
    evalBuiltin (.arith .sub) [.int a, .float q] = .ok (.float ((a : ℚ) - q)) ∧
    evalBuiltin (.arith .sub) [.float q, .int a] = .ok (.float (q - (a : ℚ))) ∧
    evalBuiltin (.arith .mul) [.int a, .float q] = .ok (.float ((a : ℚ) * q)) ∧
    evalBuiltin (.arith .mul) [.float q, .int a] = .ok (.float (q * (a : ℚ))) ∧
    (q ≠ 0 → evalBuiltin (.arith .div) [.int a, .float q]
      = .ok (.float ((a : ℚ) / q))) ∧
    (a ≠ 0 → evalBuiltin (.arith .div) [.float q, .int a]
      = .ok (.float (q / (a : ℚ)))) := by
  refine ⟨rfl, rfl, rfl, ?_, ?_, rfl, rfl, rfl, rfl, rfl, rfl, ?_, ?_⟩
  · intro hb
    simp [evalBuiltin, asNum, applyArith, Num.toRat, Num.toValue,
      Int.cast_eq_zero, hb]
  · simp [evalBuiltin, asNum, applyArith, Num.toRat]
  · intro hq
    simp [evalBuiltin, asNum, applyArith, Num.toRat, Num.toValue, hq]
  · intro ha
    simp [evalBuiltin, asNum, applyArith, Num.toRat, Num.toValue,
      Int.cast_eq_zero, ha]

/-- C9 witness: the promotion theorem at `a = 1`, `b = 2`,
`q = 1/2` — in particular integer division `1 / 2` produces the
float-kind value one half. -/
theorem arithmetic_promotion_witness :
    evalBuiltin (.arith .add) [.int 1, .int 2] = .ok (.int (1 + 2)) ∧
    evalBuiltin (.arith .div) [.int 1, .int 2]
      = .ok (.float ((1 : ℚ) / (2 : ℚ))) ∧
    evalBuiltin (.arith .div) [.int 1, .float (1 / 2)]
      = .ok (.float ((1 : ℚ) / (1 / 2 : ℚ))) ∧
    evalBuiltin (.arith .div) [.float (1 / 2), .int 1]
      = .ok (.float ((1 / 2 : ℚ) / (1 : ℚ))) :=
  ⟨(arithmetic_promotion 1 2 (1 / 2)).1,
   (arithmetic_promotion 1 2 (1 / 2)).2.2.2.1 (by decide),
   (arithmetic_promotion 1 2 (1 / 2)).2.2.2.2.2.2.2.2.2.2.2.1 (by norm_num),
   (arithmetic_promotion 1 2 (1 / 2)).2.2.2.2.2.2.2.2.2.2.2.2 (by decide)⟩

/-- C10: booleans pass the number check of every number-accepting
builtin — `isinstance(·, int)` holds for booleans, which are read as the
integers 1 and 0 — so such a call never fails with the number type
error: it returns the host's numeric result (every arithmetic builtin on
two booleans either succeeds or raises the host zero-division failure,
and every comparison succeeds); in particular `+` on `(true, true)`
yields the integer `2` and `=` on `(true, 1)` yields `true`. -/
theorem bool_args_as_numbers (a b : Bool) :
    asNum (.bool a) = some (.i (if a then 1 else 0)) ∧
    (∀ op : ArithOp,
      evalBuiltin (.arith op) [.bool a, .bool b]
        = (applyArith op (.i (if a then 1 else 0))
            (.i (if b then 1 else 0))).map Num.toValue) ∧
    (∀ op : ArithOp,
      (∃ r : Value, evalBuiltin (.arith op) [.bool a, .bool b] = .ok r) ∨
      evalBuiltin (.arith op) [.bool a, .bool b] = .error .zeroDivision) ∧
    (∀ op : CmpOp,
      evalBuiltin (.cmp op) [.bool a, .bool b]
        = .ok (.bool (applyCmp op (.i (if a then 1 else 0))
            (.i (if b then 1 else 0))))) ∧
    evalBuiltin (.arith .add) [.bool true, .bool true] = .ok (.int 2) ∧
    evalBuiltin (.cmp .eq) [.bool true, .int 1] = .ok (.bool true) := by
  refine ⟨rfl, ?_, ?_, ?_, rfl, rfl⟩
  · intro op
    exact arith_ok op (.bool a) (.bool b) (.i (if a then 1 else 0))
      (.i (if b then 1 else 0)) rfl rfl
  · intro op
    cases op <;> cases a <;> cases b <;>
      first
      | exact Or.inl ⟨_, rfl⟩
      | exact Or.inr rfl
  · intro op
    exact cmp_ok op (.bool a) (.bool b) (.i (if a then 1 else 0))
      (.i (if b then 1 else 0)) rfl rfl

end Prim
